import Mathlib

/-!
Shallow embedding of the syscall layer of the lzu_oslab teaching kernel
(`src/os/lab6/kernel/syscall.c`), together with theorems checking the
natural-language specification against it.

Modelling conventions:
* Machine words (`uint64_t` values such as fd numbers and addresses) are
  `Nat`; signed 64-bit results (`int64_t`) are `Int`.  No arithmetic in the
  modelled code overflows on its intended domain, so no `% 2^64` reduction
  is needed: the only subtraction is `START_STACK - stack_size`, where the
  kernel configuration has `stack_size ≤ START_STACK`.
* `current->fd` is a 4-element array of inode pointers.  We model it as a
  total function `Nat → Option Inode`: indices 0..3 are the real slots and
  larger indices stand for whatever memory sits after the array, so that
  out-of-bounds accesses performed by the C code stay visible in the model.
* A null pointer is `none`; dereferencing null or indexing an unused task
  slot makes the modelled operation return `none` (a crash).
* `panic` (no return) is modelled by `Option`/`none` results.
-/

namespace Oslab

/-- Error code `EAGAIN` from `errno.h` (standard value). -/
def EAGAIN : Nat := 11

/-- Error code `EINVAL` from `errno.h` (standard value). -/
def EINVAL : Nat := 22

/-- An opaque VFS inode handle (`struct vfs_inode *` that is non-null).
Only its identity matters to the syscall layer. -/
structure Inode where
  id : Nat
deriving DecidableEq, Repr

/-- The per-process fd array `current->fd`.  Valid slots are 0..3; indices
≥ 4 model the memory that happens to sit after the array. -/
abbrev FdTable := Nat → Option Inode

/-- The stat record produced by the VFS collaborator (`struct vfs_stat`);
its contents are opaque to the syscall layer. -/
structure VfsStat where
  data : Nat
deriving DecidableEq, Repr

/-- The loop `while (fd < 4) { ... fd += 1; }` of `sys_open`.  `fd` is the
loop counter and the fuel argument is `4 - fd`, so recursion is structural.

Body, from the source: if slot `fd` is occupied, advance; otherwise call
`vfs_get_inode` (its outcome is the parameter `lookup`), store the result
into the slot unconditionally, and if it is non-null return `fd`, else
`break` out to the final `return -EAGAIN`. -/
def openScan (lookup : Option Inode) (t : FdTable) (fd : Nat) : Nat → FdTable × Int
  | 0 => (t, -(EAGAIN : Int))
  | fuel + 1 =>
    match t fd with
    | some _ => openScan lookup t (fd + 1) fuel
    | none =>
      let t2 := Function.update t fd lookup
      match lookup with
      | some _ => (t2, (fd : Int))
      | none => (t2, -(EAGAIN : Int))

/-- Syscall handler `sys_open` (syscall.c:93–109).  The path argument only matters through
the outcome of `vfs_get_inode`, passed in as `lookup` (`none` = lookup
failed / returned NULL).  Returns the updated fd table and the `int64_t`
result. -/
def sys_open (lookup : Option Inode) (t : FdTable) : FdTable × Int :=
  openScan lookup t 0 (4 - 0)

/-- Syscall handler `sys_close` (syscall.c:114–122).  `fd` is `uint64_t`, so the source's
`fd < 0` test is vacuous and the only guard is `fd > 4` — which lets
`fd = 4` through to the 4-element array.  On the accepted path the slot is
read (for `vfs_free_inode`), overwritten with NULL, and 0 is returned. -/
def sys_close (t : FdTable) (fd : Nat) : FdTable × Int :=
  if fd > 4 then (t, -(EINVAL : Int))
  else (Function.update t fd none, 0)

/-- Syscall handler `sys_stat` (syscall.c:127–135).  Same vacuous `fd < 0` and `fd > 4`
guard as `sys_close`.  `getStat` is the VFS collaborator `vfs_get_stat`;
the first component of the result is what `memcpy` writes into the caller's
buffer (`none` = buffer untouched). -/
def sys_stat (getStat : Inode → VfsStat) (t : FdTable) (fd : Nat) :
    Option VfsStat × Int :=
  if fd > 4 then (none, -(EINVAL : Int))
  else
    match t fd with
    | none => (none, -(EINVAL : Int))
    | some ino => (some (getStat ino), 0)

/-- The first empty slot of the fd array, scanning 0,1,2,3 in order
(specification-side description used to state the scan-policy claim). -/
def firstFree (t : FdTable) : Option Nat :=
  if t 0 = none then some 0
  else if t 1 = none then some 1
  else if t 2 = none then some 2
  else if t 3 = none then some 3
  else none

/-- A concrete fd table whose four real slots and the adjacent memory cell
at index 4 are all non-null; used for concrete evaluations. -/
def tblFull : FdTable := fun i => if i ≤ 4 then some ⟨i⟩ else none

/-- A concrete fd table with every cell empty. -/
def tblEmpty : FdTable := fun _ => none

/-- Claim C3: `sys_open` examines fd slots in order 0,1,2,3; at the first
empty slot the lookup outcome decides everything: on success that slot is
bound to the inode and its index returned, on failure no later slot is
tried and the result is `-EAGAIN` with the table unchanged; with no empty
slot the result is `-EAGAIN`. -/
theorem sys_open_scan_policy (lookup : Option Inode) (t : FdTable) :
    sys_open lookup t =
      match firstFree t, lookup with
      | some j, some ino => (Function.update t j (some ino), (j : Int))
      | some _, none => (t, -(EAGAIN : Int))
      | none, _ => (t, -(EAGAIN : Int)) := by
  rcases h0 : t 0 with _ | i0 <;> rcases h1 : t 1 with _ | i1 <;>
    rcases h2 : t 2 with _ | i2 <;> rcases h3 : t 3 with _ | i3 <;>
    rcases hl : lookup with _ | ino <;>
    simp [sys_open, openScan, firstFree, h0, h1, h2, h3]

/-- Claim C5, counterexample: on an entirely empty fd table with a failing
path lookup, `sys_open` returns `-EAGAIN` although not all 4 slots are
occupied — so "`-EAGAIN` exactly when all 4 slots are occupied" is false. -/
theorem sys_open_eagain_without_full_table :
    (sys_open none tblEmpty).2 = -(EAGAIN : Int) ∧
      ¬ ∀ i, i < 4 → (tblEmpty i).isSome := by decide

/-- Claim C5 as amended: `sys_open` returns `-EAGAIN` exactly when all 4
fd slots are occupied at call time or the path lookup fails. -/
theorem sys_open_eagain_iff (lookup : Option Inode) (t : FdTable) :
    (sys_open lookup t).2 = -(EAGAIN : Int) ↔
      ((∀ i, i < 4 → (t i).isSome) ∨ lookup = none) := by
  rcases h0 : t 0 with _ | i0 <;> rcases h1 : t 1 with _ | i1 <;>
    rcases h2 : t 2 with _ | i2 <;> rcases h3 : t 3 with _ | i3 <;>
    rcases hl : lookup with _ | ino <;>
    simp [sys_open, openScan, EAGAIN, h0, h1, h2, h3, hl]
  all_goals
    first
    | exact ⟨0, by omega, h0⟩
    | exact ⟨1, by omega, h1⟩
    | exact ⟨2, by omega, h2⟩
    | exact ⟨3, by omega, h3⟩
    | (intro i hi
       interval_cases i <;> simp [h0, h1, h2, h3])

/-- Claim C9: whenever `sys_open` fails with `-EAGAIN`, the fd table is
exactly as it was before the call (the unconditional store
`current->fd[fd] = inode` on the failure path writes NULL over an
already-empty slot, so no slot is bound or cleared). -/
theorem sys_open_error_frame (lookup : Option Inode) (t : FdTable)
    (h : (sys_open lookup t).2 = -(EAGAIN : Int)) :
    (sys_open lookup t).1 = t := by
  rcases h0 : t 0 with _ | i0 <;> rcases h1 : t 1 with _ | i1 <;>
    rcases h2 : t 2 with _ | i2 <;> rcases h3 : t 3 with _ | i3 <;>
    rcases hl : lookup with _ | ino <;>
    simp [sys_open, openScan, EAGAIN, h0, h1, h2, h3, hl] at h ⊢

/-- Witness for `sys_open_error_frame` at a concrete input. -/
theorem sys_open_error_frame_witness :
    (sys_open (some ⟨9⟩) tblFull).2 = -(EAGAIN : Int) ∧
      (sys_open (some ⟨9⟩) tblFull).1 = tblFull :=
  ⟨by decide, sys_open_error_frame (some ⟨9⟩) tblFull (by decide)⟩

/-- Claim C2, failing input: `sys_close` accepts `fd = 4` (the guard in the
source is `fd > 4`, and `fd < 0` is vacuous on `uint64_t`), returns 0
instead of `-EINVAL`, and writes NULL one cell past the 4-slot array. -/
theorem sys_close_fd4_bug :
    (sys_close tblFull 4).2 = 0 ∧ (0 : Int) ≠ -(EINVAL : Int) ∧
      tblFull 4 = some ⟨4⟩ ∧ (sys_close tblFull 4).1 4 = none := by decide

/-- Claim C6, failing input: `sys_stat` accepts `fd = 4` through the same
`fd > 4` guard, reads the cell one past the 4-slot array, and — when that
memory is non-null — returns 0 and fills the buffer instead of returning
`-EINVAL`. -/
theorem sys_stat_fd4_bug :
    (sys_stat (fun ino => ⟨ino.id⟩) tblFull 4).2 = 0 ∧
      (0 : Int) ≠ -(EINVAL : Int) ∧
      (sys_stat (fun ino => ⟨ino.id⟩) tblFull 4).1 = some ⟨4⟩ := by decide

/-- The fields of `struct task_struct` (the PCB) that the modelled syscalls
touch: `pid`, the parent pointer `p_pptr` (modelled as an index into the
task table, `none` = NULL), the saved `a0` of the process's trapframe
(the value its interrupted syscall returns when it resumes), and the heap
bounds `end_data` and `brk`.  The per-process fd array `current->fd` is
modelled separately as `FdTable`. -/
structure PCB where
  pid : Int
  p_pptr : Option Nat
  tf_a0 : Int
  end_data : Nat
  brk : Nat
deriving DecidableEq, Repr

/-- Syscall handler `sys_brk` (syscall.c:66–72).  `START_STACK` and `stack_size` are the
kernel globals bounding the stack; the kernel configuration has
`stack_size ≤ START_STACK`, so truncated `Nat` subtraction coincides with
the C `uint64_t` subtraction.  Returns the updated PCB and the `int64_t`
result (the possibly-unchanged `current->brk`). -/
def sys_brk (START_STACK stack_size : Nat) (p : PCB) (new_brk : Nat) :
    PCB × Int :=
  let p2 := if new_brk ≥ p.end_data ∧ new_brk < START_STACK - stack_size
    then { p with brk := new_brk } else p
  (p2, (p2.brk : Int))

/-- Claim C4: `sys_brk b` stores `b` exactly when
`end_data ≤ b < START_STACK - stack_size` and otherwise leaves the PCB
unchanged; it always returns the stored brk, never a negative error; and
calling it twice in a row is the same as calling it once. -/
theorem sys_brk_spec (START_STACK stack_size : Nat) (p : PCB) (b : Nat) :
    ((p.end_data ≤ b ∧ b < START_STACK - stack_size) →
        ((sys_brk START_STACK stack_size p b).1).brk = b) ∧
    (¬(p.end_data ≤ b ∧ b < START_STACK - stack_size) →
        (sys_brk START_STACK stack_size p b).1 = p) ∧
    (sys_brk START_STACK stack_size p b).2 =
        (((sys_brk START_STACK stack_size p b).1).brk : Int) ∧
    0 ≤ (sys_brk START_STACK stack_size p b).2 ∧
    sys_brk START_STACK stack_size ((sys_brk START_STACK stack_size p b).1) b =
        sys_brk START_STACK stack_size p b := by
  by_cases hc : b ≥ p.end_data ∧ b < START_STACK - stack_size <;>
    simp [sys_brk, hc]

/-- Witness for `sys_brk_spec` at a concrete input. -/
theorem sys_brk_spec_witness :
    ((⟨1, none, 0, 64, 80⟩ : PCB).end_data ≤ 100 ∧ 100 < 1000 - 16) ∧
      ((sys_brk 1000 16 ⟨1, none, 0, 64, 80⟩ 100).1).brk = 100 :=
  ⟨by decide, (sys_brk_spec 1000 16 ⟨1, none, 0, 64, 80⟩ 100).1 (by decide)⟩

/-- The process-wide state the `syscall` wrapper touches: the error
code `errno`. -/
structure UserEnv where
  errno : Int
deriving DecidableEq, Repr

/-- The generic entry point `syscall` (syscall.c:197–231).  The six
variadic arguments only flow into the `ecall`; the value the dispatched
handler `syscall_table[number]` produces back in `a0` is the parameter
`handler_ret`, so they are not modelled.  `panic` does not return and is
modelled as `none`.  On `ret < 0` the source sets `errno = -ret`; this
`int64_t` negation cannot overflow for the results the table's handlers
produce (all are well above `-2^63`), so plain `Int` negation is used. -/
def syscall (NR_TASKS : Nat) (number : Int) (handler_ret : Int)
    (env : UserEnv) : Option (UserEnv × Int) :=
  if 0 < number ∧ number < (NR_TASKS : Int) then
    let ret := handler_ret
    if ret < 0 then some ({ env with errno := -ret }, -1)
    else some (env, ret)
  else none

/-- Claim C1: `syscall(n, ...)` is fatal (panics, no return) when `n ≤ 0`
or `n ≥ NR_TASKS`; otherwise, a negative handler result `r` makes the
wrapper set `errno` to `|r|` and return −1, and a non-negative handler
result is returned as is. -/
theorem syscall_wrapper_spec (NR_TASKS : Nat) (n r : Int) (env : UserEnv) :
    ((n ≤ 0 ∨ (NR_TASKS : Int) ≤ n) → syscall NR_TASKS n r env = none) ∧
    ((0 < n ∧ n < (NR_TASKS : Int)) → r < 0 →
        syscall NR_TASKS n r env = some ({ env with errno := |r| }, -1)) ∧
    ((0 < n ∧ n < (NR_TASKS : Int)) → 0 ≤ r →
        syscall NR_TASKS n r env = some (env, r)) := by
  refine ⟨fun h => ?_, fun h hr => ?_, fun h hr => ?_⟩
  · have : ¬(0 < n ∧ n < (NR_TASKS : Int)) := by omega
    simp [syscall, this]
  · simp [syscall, h, hr, abs_of_neg hr]
  · simp [syscall, h, not_lt.mpr hr]

/-- Witness for `syscall_wrapper_spec` at a concrete input (the
negative-result branch). -/
theorem syscall_wrapper_spec_witness :
    ((0 : Int) < 3 ∧ (3 : Int) < ((64 : Nat) : Int)) ∧ (-7 : Int) < 0 ∧
      syscall 64 3 (-7) ⟨0⟩ = some ({ errno := |(-7 : Int)| }, -1) :=
  ⟨⟨by decide, by decide⟩, by decide,
    (syscall_wrapper_spec 64 3 (-7) ⟨0⟩).2.1 ⟨by decide, by decide⟩ (by decide)⟩

/-- Claim C10: for an in-range syscall number whose handler returns a
non-negative `v`, the wrapper returns exactly `v` and leaves the
process-wide `errno` unmodified (the whole environment is returned
unchanged; `errno` is written only on the negative-result path). -/
theorem syscall_nonneg_passthrough (NR_TASKS : Nat) (n r : Int)
    (env : UserEnv) (h1 : 0 < n) (h2 : n < (NR_TASKS : Int)) (h3 : 0 ≤ r) :
    syscall NR_TASKS n r env = some (env, r) := by
  simp [syscall, h1, h2, not_lt.mpr h3]

/-- Witness for `syscall_nonneg_passthrough` at a concrete input. -/
theorem syscall_nonneg_passthrough_witness :
    (0 : Int) < 3 ∧ (3 : Int) < ((64 : Nat) : Int) ∧ (0 : Int) ≤ 5 ∧
      syscall 64 3 5 ⟨9⟩ = some (⟨9⟩, 5) :=
  ⟨by decide, by decide, by decide,
    syscall_nonneg_passthrough 64 3 5 ⟨9⟩ (by decide) (by decide) (by decide)⟩

/-- The scheduler state the modelled process syscalls touch: the fixed
task table `tasks` (`none` = unused slot / NULL pointer) and the index of
the running process, `current == tasks[cur]`.  Distinct slots hold
distinct PCB objects, so the source's pointer test `current == tasks[0]`
is the index test `cur = 0`. -/
structure TaskState where
  tasks : Nat → Option PCB
  cur : Nat

/-- Syscall handler `sys_getppid` (syscall.c:54–61): `current == tasks[0]` returns 0, else
`current->p_pptr->pid`.  A `none` result models a crash: `current` not a
live slot or a NULL parent dereference. -/
def sys_getppid (s : TaskState) : Option Int :=
  if s.cur = 0 then some 0
  else
    match s.tasks s.cur with
    | none => none
    | some p =>
      match p.p_pptr with
      | none => none
      | some j =>
        match s.tasks j with
        | none => none
        | some q => some q.pid

/-- Claim C7: under the process-table invariant (the current slot is live;
every PCB except init has a live parent with a non-negative pid),
`sys_getppid` returns 0 for init (`tasks[0]`), the recorded parent's pid
for every other process, and never fails: it always produces a
non-negative value. -/
theorem sys_getppid_spec (s : TaskState) (p : PCB)
    (hc : s.tasks s.cur = some p)
    (hpar : s.cur ≠ 0 →
      ∃ j q, p.p_pptr = some j ∧ s.tasks j = some q ∧ 0 ≤ q.pid) :
    (s.cur = 0 → sys_getppid s = some 0) ∧
    (∀ j q, s.cur ≠ 0 → p.p_pptr = some j → s.tasks j = some q →
        sys_getppid s = some q.pid) ∧
    ∃ r, sys_getppid s = some r ∧ 0 ≤ r := by
  refine ⟨fun h0 => by simp [sys_getppid, h0], ?_, ?_⟩
  · intro j q hne hj hq
    simp [sys_getppid, hne, hc, hj, hq]
  · by_cases h0 : s.cur = 0
    · exact ⟨0, by simp [sys_getppid, h0], le_refl 0⟩
    · obtain ⟨j, q, hj, hq, hpid⟩ := hpar h0
      exact ⟨q.pid, by simp [sys_getppid, h0, hc, hj, hq], hpid⟩

/-- A concrete two-process table: init in slot 0 and a child of init in
slot 1. -/
def twoTasks : TaskState :=
  { tasks := fun i =>
      if i = 0 then some ⟨0, none, 0, 0, 0⟩
      else if i = 1 then some ⟨1, some 0, 0, 0, 0⟩
      else none,
    cur := 1 }

/-- Witness for `sys_getppid_spec` at a concrete input: the child in slot 1
gets ppid 0, the pid of init. -/
theorem sys_getppid_spec_witness :
    twoTasks.tasks twoTasks.cur = some ⟨1, some 0, 0, 0, 0⟩ ∧
      sys_getppid twoTasks = some 0 :=
  ⟨by decide,
    (sys_getppid_spec twoTasks ⟨1, some 0, 0, 0, 0⟩ (by decide)
        (fun _ => ⟨0, ⟨0, none, 0, 0, 0⟩, rfl, by decide, by decide⟩)).2.1
      0 ⟨0, none, 0, 0, 0⟩ (by decide) rfl (by decide)⟩

/-- Modelled from the spec: `sys_fork` is only declared `extern` in
syscall.c (its body is in process-management code not present here).
Spec §4.3: fork "duplicates the calling process's PCB into a free table
slot: new pid, parent = caller, trapframe cloned so the syscall returns 0
in the child and the child's pid in the parent, address-space metadata
(brk/end_data) copied by value".  The chosen free slot `j` and the freshly
allocated pid `newpid` are inputs, since the spec fixes neither policy;
`none` models an unsuccessful fork (no free slot / dead caller). -/
def sys_fork (s : TaskState) (j : Nat) (newpid : Int) :
    Option (TaskState × Int) :=
  if s.tasks j = none then
    match s.tasks s.cur with
    | none => none
    | some p =>
      let child : PCB :=
        { p with pid := newpid, p_pptr := some s.cur, tf_a0 := 0 }
      some ({ s with tasks := Function.update s.tasks j (some child) },
        newpid)
  else none

/-- Claim C8: a successful `fork` returns the child's pid — a positive
value — to the parent, while the child's cloned trapframe makes the same
logical call return 0 when the child's PCB resumes; the child records the
caller as its parent. -/
theorem sys_fork_double_return (s : TaskState) (j : Nat) (newpid : Int)
    (hpos : 0 < newpid) (s2 : TaskState) (ret : Int)
    (h : sys_fork s j newpid = some (s2, ret)) :
    0 < ret ∧ ∃ child : PCB, s2.tasks j = some child ∧ child.pid = ret ∧
      child.tf_a0 = 0 ∧ child.p_pptr = some s.cur := by
  unfold sys_fork at h
  by_cases hfree : s.tasks j = none
  · rcases hp : s.tasks s.cur with _ | p
    · simp [hfree, hp] at h
    · simp only [hfree, if_true, hp] at h
      obtain ⟨hs2, hret⟩ := Prod.mk.injEq .. ▸ Option.some.injEq .. ▸ h
      subst hret
      refine ⟨hpos, { p with pid := newpid, p_pptr := some s.cur, tf_a0 := 0 },
        ?_, rfl, rfl, rfl⟩
      rw [← hs2]
      simp
  · simp [hfree] at h

/-- A one-process table: only init, running. -/
def initOnly : TaskState :=
  ⟨fun i => if i = 0 then some ⟨0, none, 0, 0, 0⟩ else none, 0⟩

/-- The table `initOnly` after forking a child with pid 1 into slot 1. -/
def initForked : TaskState :=
  ⟨Function.update initOnly.tasks 1 (some ⟨1, some 0, 0, 0, 0⟩), 0⟩

/-- Witness for `sys_fork_double_return` at a concrete input: init forks a
child with pid 1 into slot 1. -/
theorem sys_fork_double_return_witness :
    (0 : Int) < 1 ∧ sys_fork initOnly 1 1 = some (initForked, 1) ∧
      (0 : Int) < 1 ∧ ∃ child : PCB, initForked.tasks 1 = some child ∧
        child.pid = 1 ∧ child.tf_a0 = 0 ∧ child.p_pptr = some 0 :=
  ⟨by decide, rfl,
    sys_fork_double_return initOnly 1 1 (by decide) initForked 1 rfl⟩

end Oslab
